import Mathlib

/-!
Verification of the Eco-Tourism climate-risk prediction service
(`src/api/index.py`) against its natural-language specification.

The service is a small Flask application.  We shallowly embed its pure
request-handling logic:

* JSON values are modelled by `Value` (strings, numbers as `ℚ`, booleans,
  null); floats become rationals with the same comparison structure.
* A JSON object / pandas single-row DataFrame is an association list
  `List (String × α)` with first-match lookup and Python-dict update
  semantics (`lookupKey`, `setKey`, `setdefault`).
* Raised exceptions become `Except String`; the exception message is the
  carried string.
* The four module-level artifact maps (`models`, `scalers`, `encoders`,
  `feature_names`) become the explicit state `ArtifactState`; the artifact
  directory becomes `FileSystem`.
* Fitted sklearn objects are opaque function-bearing structures: a
  `LabelEncoder` is its ordered class vocabulary (`transform` of a known
  class is its index in `classes_`), a scaler is an arbitrary vector
  transform, a model is its prediction functions.
-/

/-- A JSON value as it travels through the service: the request body is an
untyped map of these. Python floats are modelled as rationals. -/
inductive Value where
  | str (s : String)
  | num (q : ℚ)
  | bool (b : Bool)
  | null
  deriving DecidableEq

/-- Python `str(x)` as applied to a `Value` (used by the categorical-encoding
lambda `str(x)` in `preprocess_input_data`). -/
def pyStr : Value → String
  | .str s => s
  | .num q => toString q
  | .bool b => if b then "True" else "False"
  | .null => "None"

/-- A request record / DataFrame row: an association map from field name to
value.  Keys are unique by construction of the update operations. -/
abbrev Record := List (String × Value)

/-- First-match lookup in an association map (Python `d[k]` / `k in d`). -/
def lookupKey {α : Type} : List (String × α) → String → Option α
  | [], _ => none
  | (key0, val0) :: rest, key =>
    if key0 = key then some val0 else lookupKey rest key

/-- Python `d[k] = v`: replace the first binding of `k`, or append if absent. -/
def setKey {α : Type} : List (String × α) → String → α → List (String × α)
  | [], key, val => [(key, val)]
  | (key0, val0) :: rest, key, val =>
    if key0 = key then (key, val) :: rest else (key0, val0) :: setKey rest key val

/-- Python `d.setdefault(k, v)`: insert `k ↦ v` only when `k` is absent. -/
def setdefault {α : Type} (r : List (String × α)) (k : String) (v : α) :
    List (String × α) :=
  match lookupKey r k with
  | some _ => r
  | none => r ++ [(k, v)]

/-- Python list indexing `xs[i]` for a possibly negative integer index:
a negative index counts from the end; out of range raises. -/
def pyIndex {α : Type} (xs : List α) (i : ℤ) : Except String α :=
  let j := if i < 0 then i + xs.length else i
  if h : 0 ≤ j ∧ j.toNat < xs.length then .ok (xs.get ⟨j.toNat, h.2⟩)
  else .error "list index out of range"

/-- Python `repr` of a list of strings, as produced by the f-strings
`f"Missing fields: {missing}"` and `f"Missing input features: {missing}"`
(e.g. `[\x27A\x27, \x27B\x27]`). -/
def pyListRepr (xs : List String) : String :=
  "[" ++ String.intercalate ", " (xs.map (fun s => "\x27" ++ s ++ "\x27")) ++ "]"

/-- A fitted sklearn `LabelEncoder`: its ordered vocabulary `classes_`.
`transform([s])[0]` for a known class `s` is the index of `s` in `classes_`. -/
structure Encoder where
  classes : List String
  deriving DecidableEq

/-- A fitted scaler: an opaque vector transform (`scaler.transform` on one
row), matching what the model was trained on. -/
structure Scaler where
  transform : List ℚ → List ℚ

/-- A fitted model object.  The regression model is used through `predict`
(one continuous value per row); the classification model through `predict`
(one class index per row) and `predict_proba` (one probability vector). -/
structure Model where
  predictReg : List ℚ → ℚ
  predictCls : List ℚ → ℤ
  predictProba : List ℚ → List ℚ

/-- The four module-level artifact maps of `index.py`, passed explicitly. -/
structure ArtifactState where
  models : List (String × Model)
  scalers : List (String × Scaler)
  encoders : List (String × List (String × Encoder))
  feature_names : List (String × List String)

/-- The artifact directory plus the feature-name JSON one level above it.
Each field is the deserialized content of the correspondingly named file,
or `none` when the file is absent. -/
structure FileSystem where
  regModelFile : Option Model
  clsModelFile : Option Model
  regScalerFile : Option Scaler
  clsScalerFile : Option Scaler
  regEncodersFile : Option (List (String × Encoder))
  clsEncodersFile : Option (List (String × Encoder))
  featureNamesFile : Option (List (String × List String))

/-- The six expected artifact filenames checked by the loader. -/
def expectedFiles : List String :=
  ["best_regression_model_linear.pkl",
   "best_classification_model_logistic.pkl",
   "regression_scaler.pkl",
   "classification_scaler.pkl",
   "regression_encoders.pkl",
   "classification_encoders.pkl"]

/-- `os.path.exists(os.path.join(MODEL_DIR, name))` for an expected name. -/
def fsHas (fs : FileSystem) (name : String) : Bool :=
  if name = "best_regression_model_linear.pkl" then fs.regModelFile.isSome
  else if name = "best_classification_model_logistic.pkl" then fs.clsModelFile.isSome
  else if name = "regression_scaler.pkl" then fs.regScalerFile.isSome
  else if name = "classification_scaler.pkl" then fs.clsScalerFile.isSome
  else if name = "regression_encoders.pkl" then fs.regEncodersFile.isSome
  else if name = "classification_encoders.pkl" then fs.clsEncodersFile.isSome
  else false

/-- `load_models_and_processors` (index.py lines 31-77): pre-checks the six
expected files, aborting with `False` and untouched maps when any is
missing; otherwise deserializes each into its map slot in source order, and
finally reads the feature-name JSON.  A missing feature-name file raises
inside the `try`, is caught, and yields `False` with the pickled maps
already updated (the partial-load hazard the spec notes in §9). -/
def load_models_and_processors (fs : FileSystem) (st : ArtifactState) :
    Bool × ArtifactState :=
  let missing := expectedFiles.filter (fun f => ! fsHas fs f)
  if missing ≠ [] then (false, st)
  else
    match fs.regModelFile, fs.clsModelFile, fs.regScalerFile, fs.clsScalerFile,
        fs.regEncodersFile, fs.clsEncodersFile with
    | some rm, some cm, some rs, some cs, some re, some ce =>
      let ms := setKey (setKey st.models "regression" rm) "classification" cm
      let scs := setKey (setKey st.scalers "regression" rs) "classification" cs
      let es := setKey (setKey st.encoders "regression" re) "classification" ce
      let st := { st with models := ms, scalers := scs, encoders := es }
      match fs.featureNamesFile with
      | some fn => (true, { st with feature_names := fn })
      | none => (false, st)
    | _, _, _, _, _, _ =>
      -- unreachable: the missing-file pre-check guarantees all six are present
      (false, st)

/-- The three categorical fields encoded by `preprocess_input_data`. -/
def catFeatures : List String := ["Vegetation_Type", "Soil_Type", "Country"]

/-- One categorical column: `encoder.transform([str(x)])[0]` when `str(x)`
is a known class, else the literal fallback `0` (index.py lines 96-98). -/
def encodeValue (e : Encoder) (v : Value) : Value :=
  if pyStr v ∈ e.classes then .num (e.classes.indexOf (pyStr v)) else .num 0

/-- The per-field step of the categorical loop (index.py lines 93-98): the
column is re-encoded only when it is present and the task has an encoder
for it; otherwise the record passes through unchanged. -/
def encodeField (encs : List (String × Encoder)) (d : Record) (feat : String) :
    Record :=
  match lookupKey d feat, lookupKey encs feat with
  | some v, some e => setKey d feat (encodeValue e v)
  | _, _ => d

/-- The categorical-encoding loop over `Vegetation_Type`, `Soil_Type`,
`Country`. -/
def encodeCategoricals (encs : List (String × Encoder)) (d : Record) : Record :=
  catFeatures.foldl (encodeField encs) d

/-- Python `astype(int)` on the `Protected_Area_Status` column: booleans and
numbers coerce (floats truncate toward zero), anything else raises. -/
def coerceInt (v : Value) : Except String Value :=
  match v with
  | .bool b => .ok (.num (if b then 1 else 0))
  | .num q => .ok (.num ((if 0 ≤ q then ⌊q⌋ else ⌈q⌉ : ℤ) : ℚ))
  | .str s => .error ("invalid literal for int: " ++ s)
  | .null => .error "int of null"

/-- A feature value handed to `scaler.transform`: must be numeric. -/
def valueAsNum (v : Value) : Except String ℚ :=
  match v with
  | .num q => .ok q
  | .bool b => .ok (if b then 1 else 0)
  | .str s => .error ("could not convert string to float: " ++ s)
  | .null => .error "float of null"

/-- The tail of `preprocess_input_data` after the categorical/boolean
transforms (index.py lines 104-110): look up the task's ordered column
list, fail naming any column absent from the transformed record, select
the columns in order as numbers, and apply the task's scaler. -/
def preprocessCols (st : ArtifactState) (d : Record) (task : String) :
    Except String (List ℚ) :=
  let cols := (lookupKey st.feature_names (task ++ "_features")).getD []
  let missing := cols.filter (fun c => (lookupKey d c).isNone)
  if missing ≠ [] then .error ("Missing input features: " ++ pyListRepr missing)
  else
    match cols.mapM (fun c => valueAsNum ((lookupKey d c).getD .null)) with
    | .error e => .error e
    | .ok features =>
      match lookupKey st.scalers task with
      | some sc => .ok (sc.transform features)
      | none => .error "scaler lookup"

/-- The body of the `try` in `preprocess_input_data` (index.py lines 82-110):
model-loaded check, artifact-presence check for the task, categorical
encoding, boolean coercion of `Protected_Area_Status`, then column
selection and scaling (`preprocessCols`). -/
def preprocessInner (st : ArtifactState) (data : Record) (task : String) :
    Except String (List ℚ) :=
  if st.models.isEmpty then .error "Models not loaded"
  else if (lookupKey st.encoders task).isNone ∨ (lookupKey st.scalers task).isNone ∨
      (lookupKey st.feature_names (task ++ "_features")).isNone then
    .error ("Missing encoders/scalers/features for task \x27" ++ task ++ "\x27")
  else
    let encs := (lookupKey st.encoders task).getD []
    let d := encodeCategoricals encs data
    match lookupKey d "Protected_Area_Status" with
    | some v =>
      match coerceInt v with
      | .ok w => preprocessCols st (setKey d "Protected_Area_Status" w) task
      | .error e => .error e
    | none => preprocessCols st d task

/-- `preprocess_input_data` (index.py lines 79-113): every failure of the
inner sequence is caught and re-raised as the single generic condition
`"Error preprocessing data: <original message>"`. -/
def preprocess_input_data (st : ArtifactState) (data : Record) (task : String) :
    Except String (List ℚ) :=
  match preprocessInner st data task with
  | .ok v => .ok v
  | .error e => .error ("Error preprocessing data: " ++ e)

/-- The 13 required request fields (index.py lines 134-139). -/
def requiredFields : List String :=
  ["Latitude", "Longitude", "Vegetation_Type", "Biodiversity_Index",
   "Protected_Area_Status", "Elevation_m", "Slope_Degree", "Soil_Type",
   "Air_Quality_Index", "Average_Temperature_C", "Tourist_Attractions",
   "Accessibility_Score", "Tourist_Capacity_Limit"]

/-- The missing-required-fields computation
`[f for f in required if f not in input_data]` (index.py line 140):
a pure key-presence test. -/
def missingFields (input : Record) : List String :=
  requiredFields.filter (fun f => (lookupKey input f).isNone)

/-- The names of the ten optional fields defaulted by the predict endpoint. -/
def optionalFields : List String :=
  ["Country", "Flood_Risk_Index", "Drought_Risk_Index", "Temperature_C",
   "Annual_Rainfall_mm", "Soil_Erosion_Risk", "Current_Tourist_Count",
   "Human_Activity_Index", "Conservation_Investment_USD", "Climate_Risk_Score"]

/-- `input_data['Tourist_Capacity_Limit'] * 0.6`: Python numeric
multiplication by the float `0.6`; booleans are numeric, strings and null
raise `TypeError`. -/
def mulSixTenths (v : Value) : Except String Value :=
  match v with
  | .num q => .ok (.num (q * (3 / 5)))
  | .bool b => .ok (.num (if b then (3 / 5) else 0))
  | .str _ => .error "TypeError: multiplying str by float"
  | .null => .error "TypeError: multiplying NoneType by float"

/-- The literal entries of the defaults dict, in source order, given the two
derived values (`Temperature_C` and `Current_Tourist_Count` defaults). -/
def defaultsList (tempDefault ctc : Value) : List (String × Value) :=
  [("Country", .str "USA"),
   ("Flood_Risk_Index", .num (3 / 10)),
   ("Drought_Risk_Index", .num (3 / 10)),
   ("Temperature_C", tempDefault),
   ("Annual_Rainfall_mm", .num 1000),
   ("Soil_Erosion_Risk", .num (1 / 5)),
   ("Current_Tourist_Count", ctc),
   ("Human_Activity_Index", .num (2 / 5)),
   ("Conservation_Investment_USD", .num 100000),
   ("Climate_Risk_Score", .num (2 / 5))]

/-- The defaults dict of the predict endpoint (index.py lines 145-152),
computed from the incoming record before any injection: `Temperature_C`
defaults to the record's `Average_Temperature_C` (or `20.0` if that is
absent); `Current_Tourist_Count` to `Tourist_Capacity_Limit * 0.6`
(a `KeyError` when that key is absent). -/
def defaultsFor (input : Record) : Except String (List (String × Value)) :=
  match lookupKey input "Tourist_Capacity_Limit" with
  | none => .error "KeyError: \x27Tourist_Capacity_Limit\x27"
  | some tcl =>
    match mulSixTenths tcl with
    | .error e => .error e
    | .ok ctc =>
      .ok (defaultsList ((lookupKey input "Average_Temperature_C").getD (.num 20)) ctc)

/-- Default injection (index.py lines 144-154): build the defaults dict,
then `input_data.setdefault(k, v)` for each entry in order. -/
def applyDefaults (input : Record) : Except String Record :=
  match defaultsFor input with
  | .error e => .error e
  | .ok ds => .ok (ds.foldl (fun r kv => setdefault r kv.1 kv.2) input)

/-- The category label list `cats = ['Low','Medium','High']` (index.py 163). -/
def cats : List String := ["Low", "Medium", "High"]

/-- `cats[cls] if cls < len(cats) else 'Unknown'` (index.py line 164):
note the guard is only an upper bound, so Python negative indexing applies
to negative class indices. -/
def floodCategory (cls : ℤ) : Except String String :=
  if cls < 3 then pyIndex cats cls else .ok "Unknown"

/-- `{cats[i]: float(proba[i]) for i in range(len(cats))}` (index.py 165):
always indexes the probability vector at 0, 1 and 2. -/
def buildRiskProbs (proba : List ℚ) : Except String (List (String × ℚ)) :=
  (List.range cats.length).mapM (fun i => do
    let c ← pyIndex cats (i : ℤ)
    let p ← pyIndex proba (i : ℤ)
    pure (c, p))

/-- The risk-level thresholding expression (index.py line 172):
`'Low' if score<0.33 else 'Medium' if score<0.67 else 'High'`. -/
def riskLevel (score : ℚ) : String :=
  if score < 33 / 100 then "Low" else if score < 67 / 100 then "Medium" else "High"

/-- The successful JSON body of `/api/predict` (`success: true`). -/
structure PredictOk where
  climate_risk_score : ℚ
  flood_risk_category : String
  risk_probabilities : List (String × ℚ)
  risk_level : String

/-- The response of `/api/predict`: `ok` is HTTP 200 with `success: true`;
`clientError` is HTTP 400 with `{error: msg, success: false}`;
`serverError` is HTTP 500 with `{error: msg, success: false}`. -/
inductive PredictResult where
  | ok (r : PredictOk)
  | clientError (msg : String)
  | serverError (msg : String)

/-- The body of the predict endpoint after load and validation
(index.py lines 144-174), inside the outer `try`. -/
def predictBody (st : ArtifactState) (input : Record) : Except String PredictOk := do
  let data ← applyDefaults input
  let regX ← preprocess_input_data st data "regression"
  let clsX ← preprocess_input_data st data "classification"
  let regModel ←
    match lookupKey st.models "regression" with
    | some m => pure m
    | none => throw "\x27regression\x27"
  let clsModel ←
    match lookupKey st.models "classification" with
    | some m => pure m
    | none => throw "\x27classification\x27"
  let score := regModel.predictReg regX
  let cls := clsModel.predictCls clsX
  let proba := clsModel.predictProba clsX
  let fc ← floodCategory cls
  let probs ← buildRiskProbs proba
  pure { climate_risk_score := score,
         flood_risk_category := fc,
         risk_probabilities := probs,
         risk_level := riskLevel score }

/-- The `/api/predict` handler (index.py lines 123-177): lazy artifact load
when no models are cached, 500 when still empty, 400 listing missing
required fields, then defaults, double preprocessing, both model calls and
response assembly; any raise inside is caught as a 500 carrying `str(e)`. -/
def predict (fs : FileSystem) (st : ArtifactState) (input : Record) :
    PredictResult × ArtifactState :=
  let st := if st.models.isEmpty then (load_models_and_processors fs st).2 else st
  if st.models.isEmpty then (.serverError "Models not loaded", st)
  else
    let missing := missingFields input
    if missing ≠ [] then
      (.clientError ("Missing fields: " ++ pyListRepr missing), st)
    else
      match predictBody st input with
      | .ok r => (.ok r, st)
      | .error e => (.serverError e, st)

/-- The JSON body of `/api/health` (index.py lines 180-192). -/
structure HealthResponse where
  status : String
  models_loaded : Bool
  available_models : List String
  encoders_loaded : Bool
  available_encoders : List String
  scalers_loaded : Bool
  available_scalers : List String
  feature_names_loaded : Bool
  available_feature_sets : List String

/-- The `/api/health` handler: status is `"healthy"` exactly when all four
maps are truthy (non-empty); it returns the state unchanged — the handler
performs no load. -/
def health_check (st : ArtifactState) : HealthResponse × ArtifactState :=
  ({ status :=
       if ¬ st.models.isEmpty ∧ ¬ st.encoders.isEmpty ∧ ¬ st.scalers.isEmpty ∧
           ¬ st.feature_names.isEmpty then "healthy" else "unhealthy",
     models_loaded := ! st.models.isEmpty,
     available_models := st.models.map Prod.fst,
     encoders_loaded := ! st.encoders.isEmpty,
     available_encoders := st.encoders.map Prod.fst,
     scalers_loaded := ! st.scalers.isEmpty,
     available_scalers := st.scalers.map Prod.fst,
     feature_names_loaded := ! st.feature_names.isEmpty,
     available_feature_sets := st.feature_names.map Prod.fst }, st)

/-! Concrete fixtures used to instantiate theorems with hypotheses. -/

/-- An artifact directory with every file absent. -/
def fsNone : FileSystem :=
  { regModelFile := none, clsModelFile := none, regScalerFile := none,
    clsScalerFile := none, regEncodersFile := none, clsEncodersFile := none,
    featureNamesFile := none }

/-- The artifact maps at process start: all four empty. -/
def stEmpty : ArtifactState :=
  { models := [], scalers := [], encoders := [], feature_names := [] }

/-- A placeholder fitted model (constant predictions). -/
def dummyModel : Model :=
  { predictReg := fun _ => 0, predictCls := fun _ => 0, predictProba := fun _ => [] }

/-- A state in which only the model map is populated. -/
def stOne : ArtifactState :=
  { models := [("regression", dummyModel)], scalers := [], encoders := [],
    feature_names := [] }

/-- A small trained encoder vocabulary. -/
def sampleEncoder : Encoder := { classes := ["Forest", "Urban"] }

/-- A record whose `Vegetation_Type` is unseen by `sampleEncoder`. -/
def sampleCatRecord : Record := [("Vegetation_Type", Value.str "Swamp")]

/-- A request record holding exactly the 13 required fields. -/
def sampleInput : Record :=
  [("Latitude", Value.num 10), ("Longitude", Value.num 20),
   ("Vegetation_Type", Value.str "Forest"), ("Biodiversity_Index", Value.num (1 / 2)),
   ("Protected_Area_Status", Value.bool true), ("Elevation_m", Value.num 100),
   ("Slope_Degree", Value.num 5), ("Soil_Type", Value.str "Clay"),
   ("Air_Quality_Index", Value.num 50), ("Average_Temperature_C", Value.num 25),
   ("Tourist_Attractions", Value.num 3), ("Accessibility_Score", Value.num 7),
   ("Tourist_Capacity_Limit", Value.num 500)]

/-- A record with every required field present but bound to JSON null. -/
def inputNulls : Record := requiredFields.map (fun f => (f, Value.null))

/-! Association-map lemmas. -/

theorem lookupKey_append {α : Type} (r s : List (String × α)) (k : String) :
    lookupKey (r ++ s) k = ((lookupKey r k).orElse (fun _ => lookupKey s k)) := by
  induction r with
  | nil => simp [lookupKey]
  | cons hd tl ih =>
    by_cases h : hd.1 = k
    · simp [lookupKey, h]
    · simp [lookupKey, h, ih]

theorem lookupKey_setKey_self {α : Type} (r : List (String × α)) (k : String)
    (v : α) : lookupKey (setKey r k v) k = some v := by
  induction r with
  | nil => simp [setKey, lookupKey]
  | cons hd tl ih =>
    by_cases h : hd.1 = k
    · simp [setKey, h, lookupKey]
    · simp [setKey, h, lookupKey, ih]

theorem lookupKey_setKey_ne {α : Type} (r : List (String × α)) (k k' : String)
    (v : α) (h : k' ≠ k) : lookupKey (setKey r k v) k' = lookupKey r k' := by
  induction r with
  | nil => simp [setKey, lookupKey, Ne.symm h]
  | cons hd tl ih =>
    by_cases hh : hd.1 = k
    · subst hh
      simp [setKey, lookupKey, Ne.symm h]
    · simp [setKey, hh, lookupKey, ih]

theorem lookupKey_setdefault {α : Type} (r : List (String × α)) (k k' : String)
    (v : α) :
    lookupKey (setdefault r k v) k' =
      ((lookupKey r k').orElse (fun _ => if k = k' then some v else none)) := by
  unfold setdefault
  cases h : lookupKey r k with
  | some w =>
    cases hk : lookupKey r k' with
    | some u => simp [hk]
    | none =>
      by_cases he : k = k'
      · subst he
        rw [h] at hk
        exact absurd hk (by simp)
      · simp [hk, he]
  | none =>
    rw [lookupKey_append]
    cases hk : lookupKey r k' with
    | some u => simp
    | none => simp [lookupKey]

theorem lookupKey_foldl_setdefault {α : Type} (ds : List (String × α))
    (r : List (String × α)) (k : String) :
    lookupKey (ds.foldl (fun a kv => setdefault a kv.1 kv.2) r) k =
      ((lookupKey r k).orElse (fun _ => lookupKey ds k)) := by
  induction ds generalizing r with
  | nil => simp [lookupKey]
  | cons hd tl ih =>
    rw [List.foldl_cons, ih, lookupKey_setdefault]
    by_cases h : hd.1 = k
    · cases hk : lookupKey r k <;> simp [lookupKey, h, hk]
    · cases hk : lookupKey r k <;> simp [lookupKey, h, hk]

theorem lookupKey_isSome_of_mem {α : Type} (l : List (String × α))
    (kv : String × α) (h : kv ∈ l) : (lookupKey l kv.1).isSome := by
  induction l with
  | nil => cases h
  | cons hd tl ih =>
    by_cases hh : hd.1 = kv.1
    · simp [lookupKey, hh]
    · rcases List.mem_cons.mp h with rfl | hmem
      · exact absurd rfl hh
      · simp [lookupKey, hh, ih hmem]

theorem setdefault_of_isSome {α : Type} (r : List (String × α)) (k : String)
    (v : α) (h : (lookupKey r k).isSome) : setdefault r k v = r := by
  unfold setdefault
  cases hk : lookupKey r k with
  | some w => rfl
  | none => rw [hk] at h; simp at h

theorem foldl_setdefault_of_present {α : Type} (ds : List (String × α))
    (r : List (String × α)) (h : ∀ kv ∈ ds, (lookupKey r kv.1).isSome) :
    ds.foldl (fun a kv => setdefault a kv.1 kv.2) r = r := by
  induction ds with
  | nil => rfl
  | cons hd tl ih =>
    rw [List.foldl_cons, setdefault_of_isSome r hd.1 hd.2 (h hd (by simp))]
    exact ih (fun kv hkv => h kv (by simp [hkv]))

/-! Claim C1: mapping of the classifier's class index to the category label. -/

/-- C1 counterexample: the claim says a negative class index maps to
`"Unknown"`, but `cats[cls] if cls < len(cats) else 'Unknown'` lets Python
negative indexing through: index `-1` yields `"High"`. -/
theorem floodCategory_neg_one :
    floodCategory (-1) = Except.ok "High" ∧
      floodCategory (-1) ≠ Except.ok "Unknown" := by
  refine ⟨rfl, ?_⟩
  intro h
  rw [show floodCategory (-1) = Except.ok "High" from rfl] at h
  simp at h

/-- C1 (amended): index 0/1/2 map to Low/Medium/High and any index ≥ 3 maps
to `"Unknown"`; but a negative index in −3..−1 selects from the end of the
label list (−1 → High, −2 → Medium, −3 → Low), and an index below −3 raises
an out-of-range error instead of producing `"Unknown"`. -/
theorem floodCategory_cases (cls : ℤ) :
    floodCategory cls =
      if 3 ≤ cls then Except.ok "Unknown"
      else if cls = 0 then Except.ok "Low"
      else if cls = 1 then Except.ok "Medium"
      else if cls = 2 then Except.ok "High"
      else if cls = -1 then Except.ok "High"
      else if cls = -2 then Except.ok "Medium"
      else if cls = -3 then Except.ok "Low"
      else Except.error "list index out of range" := by
  by_cases h : 3 ≤ cls
  · rw [floodCategory, if_neg (by omega), if_pos h]
  · rw [if_neg h]
    rcases le_or_lt cls (-4) with h4 | h4
    · have e0 : ¬ cls = 0 := by omega
      have e1 : ¬ cls = 1 := by omega
      have e2 : ¬ cls = 2 := by omega
      have em1 : ¬ cls = -1 := by omega
      have em2 : ¬ cls = -2 := by omega
      have em3 : ¬ cls = -3 := by omega
      simp only [if_neg e0, if_neg e1, if_neg e2, if_neg em1, if_neg em2, if_neg em3]
      simp only [floodCategory, pyIndex, cats]
      rw [if_pos (by omega : cls < 3)]
      rw [dif_neg (by
        rw [if_pos (show cls < 0 by omega)]
        simp only [List.length_cons, List.length_nil]
        omega)]
    · interval_cases cls <;> rfl

/-! Claim C2: risk-level thresholding on the regression score. -/

/-- C2: the `risk_level` label is `"Low"` for score < 0.33, `"Medium"` for
0.33 ≤ score < 0.67 (the 0.33 boundary included), and `"High"` for
score ≥ 0.67 (the 0.67 boundary included). -/
theorem riskLevel_thresholds (s : ℚ) :
    (s < 33 / 100 → riskLevel s = "Low") ∧
      (33 / 100 ≤ s → s < 67 / 100 → riskLevel s = "Medium") ∧
      (67 / 100 ≤ s → riskLevel s = "High") := by
  refine ⟨fun h => by rw [riskLevel, if_pos h],
    fun h1 h2 => by rw [riskLevel, if_neg (by linarith), if_pos h2],
    fun h => by rw [riskLevel, if_neg (by linarith), if_neg (by linarith)]⟩

/-- C2 witness: the five sample scores of the spec. -/
theorem riskLevel_thresholds_points :
    riskLevel (1 / 10) = "Low" ∧ riskLevel (33 / 100) = "Medium" ∧
      riskLevel (669 / 1000) = "Medium" ∧ riskLevel (67 / 100) = "High" ∧
      riskLevel (99 / 100) = "High" :=
  ⟨(riskLevel_thresholds (1 / 10)).1 (by norm_num),
   (riskLevel_thresholds (33 / 100)).2.1 (by norm_num) (by norm_num),
   (riskLevel_thresholds (669 / 1000)).2.1 (by norm_num) (by norm_num),
   (riskLevel_thresholds (67 / 100)).2.2 (by norm_num),
   (riskLevel_thresholds (99 / 100)).2.2 (by norm_num)⟩

/-! Claim C3: a missing artifact file aborts the load with untouched maps. -/

/-- C3: when any of the six expected artifact files is absent, the loader
returns the failure indicator `false` (it does not raise: it is a total
function into `Bool × ArtifactState`) and leaves all four artifact maps
exactly as they were. -/
theorem load_missing_aborts (fs : FileSystem) (st : ArtifactState)
    (h : ∃ f ∈ expectedFiles, fsHas fs f = false) :
    load_models_and_processors fs st = (false, st) := by
  obtain ⟨f, hmem, hval⟩ := h
  have hne : expectedFiles.filter (fun g => ! fsHas fs g) ≠ [] := by
    intro hnil
    have := List.filter_eq_nil_iff.mp hnil f hmem
    simp [hval] at this
  rw [load_models_and_processors, if_pos hne]

/-- C3 witness: an empty artifact directory and empty maps. -/
theorem load_missing_aborts_empty :
    load_models_and_processors fsNone stEmpty = (false, stEmpty) :=
  load_missing_aborts fsNone stEmpty
    ⟨"best_regression_model_linear.pkl", by decide, by decide⟩

/-! Small computation lemmas for Python indexing and the `Except` monad. -/

theorem pyIndex_zero {α : Type} (a : α) (l : List α) : pyIndex (a :: l) 0 = .ok a := by
  simp [pyIndex]

theorem pyIndex_one {α : Type} (a b : α) (l : List α) :
    pyIndex (a :: b :: l) 1 = .ok b := by
  simp [pyIndex]

theorem pyIndex_two {α : Type} (a b c : α) (l : List α) :
    pyIndex (a :: b :: c :: l) 2 = .ok c := by
  simp [pyIndex]

theorem exceptBind_ok {ε α β : Type} (x : α) (f : α → Except ε β) :
    (Except.ok x >>= f : Except ε β) = f x := rfl

theorem exceptBind_error {ε α β : Type} (e : ε) (f : α → Except ε β) :
    (Except.error e >>= f : Except ε β) = Except.error e := rfl

theorem exceptMap_ok {ε α β : Type} (g : α → β) (x : α) :
    (g <$> (Except.ok x : Except ε α)) = Except.ok (g x) := rfl

theorem exceptMap_error {ε α β : Type} (g : α → β) (e : ε) :
    (g <$> (Except.error e : Except ε α)) = (Except.error e : Except ε β) := rfl

theorem exceptPure {ε α : Type} (x : α) : (pure x : Except ε α) = Except.ok x := rfl

theorem mapM_loop_cons {m : Type → Type} [Monad m] {α β : Type} (f : α → m β)
    (a : α) (l : List α) (acc : List β) :
    List.mapM.loop f (a :: l) acc = f a >>= fun b => List.mapM.loop f l (b :: acc) := rfl

theorem mapM_loop_nil {m : Type → Type} [Monad m] {α β : Type} (f : α → m β)
    (acc : List β) : List.mapM.loop f [] acc = pure acc.reverse := rfl

theorem isEmpty_false_of_ne {α : Type} (l : List α) (h : l ≠ []) :
    l.isEmpty = false := by
  cases l with
  | nil => exact absurd rfl h
  | cons a t => rfl

/-! Claim C9: construction of the risk-probability map. -/

/-- C9 counterexample: on the concrete 2-entry probability vector
`[0.1, 0.7]` the comprehension still indexes position 2, so it raises an
out-of-range error instead of returning the partial map of the two
in-range labels. -/
theorem buildRiskProbs_short_vector :
    buildRiskProbs [1 / 10, 7 / 10] = Except.error "list index out of range" ∧
      buildRiskProbs [1 / 10, 7 / 10] ≠
        Except.ok [("Low", 1 / 10), ("Medium", 7 / 10)] := by
  refine ⟨rfl, ?_⟩
  intro h
  rw [show buildRiskProbs [1 / 10, 7 / 10] =
    Except.error "list index out of range" from rfl] at h
  exact Except.noConfusion h

/-- C9 (amended): the map is built for exactly the 3 known labels by index
correspondence when the probability vector has at least 3 entries; when it
has fewer than 3, the out-of-range access does occur and the construction
raises (surfaced by the endpoint as HTTP 500) rather than populating only
the in-range labels. -/
theorem buildRiskProbs_cases (proba : List ℚ) :
    (∀ p0 p1 p2 rest, proba = p0 :: p1 :: p2 :: rest →
       buildRiskProbs proba = Except.ok [("Low", p0), ("Medium", p1), ("High", p2)]) ∧
      (proba.length < 3 →
        buildRiskProbs proba = Except.error "list index out of range") := by
  constructor
  · rintro p0 p1 p2 rest rfl
    simp [buildRiskProbs, cats, List.range_succ, mapM_loop_cons, mapM_loop_nil,
      pyIndex_zero, pyIndex_one, pyIndex_two, exceptBind_ok, exceptMap_ok, exceptPure]
  · intro h
    rcases proba with _ | ⟨a, _ | ⟨b, _ | ⟨c, t⟩⟩⟩
    · rfl
    · rfl
    · rfl
    · simp at h
      omega

/-- C9 witness: a 3-entry vector builds the full map; the empty vector
raises. -/
theorem buildRiskProbs_cases_points :
    buildRiskProbs [1 / 10, 7 / 10, 2 / 10] =
        Except.ok [("Low", 1 / 10), ("Medium", 7 / 10), ("High", 2 / 10)] ∧
      buildRiskProbs [] = Except.error "list index out of range" :=
  ⟨(buildRiskProbs_cases [1 / 10, 7 / 10, 2 / 10]).1 (1 / 10) (7 / 10) (2 / 10) [] rfl,
   (buildRiskProbs_cases []).2 (by simp)⟩

/-! Claims C4 and C10: required-field validation in the predict endpoint. -/

theorem predict_eq_clientError (fs : FileSystem) (st : ArtifactState)
    (input : Record) (hm : st.models ≠ []) (hmiss : missingFields input ≠ []) :
    predict fs st input =
      (.clientError ("Missing fields: " ++ pyListRepr (missingFields input)), st) := by
  have hni : st.models.isEmpty = false := isEmpty_false_of_ne _ hm
  simp [predict, hni, hmiss]

theorem predict_not_clientError (fs : FileSystem) (st : ArtifactState)
    (input : Record) (hm : st.models ≠ []) (hnil : missingFields input = [])
    (msg : String) : (predict fs st input).1 ≠ PredictResult.clientError msg := by
  have hni : st.models.isEmpty = false := isEmpty_false_of_ne _ hm
  cases hb : predictBody st input with
  | ok r =>
    simp [predict, hni, hnil, hb]
  | error e =>
    simp [predict, hni, hnil, hb]

/-- C4: with models loaded, a request missing at least one required field
receives the HTTP 400 response whose error string lists exactly the
missing required field names (`Missing fields: [...]`) and whose success
flag is false (the `clientError` constructor), whatever other fields are
present. -/
theorem predict_missing_fields (fs : FileSystem) (st : ArtifactState)
    (input : Record) (hm : st.models ≠ []) (hmiss : missingFields input ≠ []) :
    (predict fs st input).1 =
      PredictResult.clientError
        ("Missing fields: " ++ pyListRepr (missingFields input)) := by
  rw [predict_eq_clientError fs st input hm hmiss]

/-- C4 witness: the empty request is rejected listing all 13 required
fields. -/
theorem predict_missing_fields_empty :
    (predict fsNone stOne []).1 =
      PredictResult.clientError ("Missing fields: " ++ pyListRepr requiredFields) := by
  rw [predict_missing_fields fsNone stOne [] (by simp [stOne]) (by decide)]
  rfl

/-- C10: required-field validation tests key presence only: the missing
list is empty exactly when every required key is present, a record binding
every required key to JSON null passes validation, and the 400
missing-fields response is produced if and only if at least one required
key is absent. -/
theorem predict_validation_presence_only (fs : FileSystem) (st : ArtifactState)
    (input : Record) (hm : st.models ≠ []) :
    (missingFields input = [] ↔ ∀ f ∈ requiredFields, (lookupKey input f).isSome) ∧
      ((∀ f ∈ requiredFields, lookupKey input f = some Value.null) →
        missingFields input = []) ∧
      ((∃ f ∈ requiredFields, lookupKey input f = none) ↔
        ∃ msg, (predict fs st input).1 = PredictResult.clientError msg) := by
  have h1 : missingFields input = [] ↔
      ∀ f ∈ requiredFields, (lookupKey input f).isSome := by
    rw [missingFields, List.filter_eq_nil_iff]
    constructor
    · intro h f hf
      have hne : ¬ lookupKey input f = none := by simpa using h f hf
      exact Option.isSome_iff_ne_none.mpr hne
    · intro h f hf
      simpa using Option.isSome_iff_ne_none.mp (h f hf)
  refine ⟨h1, fun hall => h1.mpr (fun f hf => by rw [hall f hf]; rfl), ?_, ?_⟩
  · rintro ⟨f, hf, hnone⟩
    have hmiss : missingFields input ≠ [] := by
      intro hnil
      have := (h1.mp hnil) f hf
      rw [hnone] at this
      exact Bool.noConfusion this
    exact ⟨_, by rw [predict_eq_clientError fs st input hm hmiss]⟩
  · rintro ⟨msg, hmsg⟩
    by_contra hno
    push_neg at hno
    have hnil : missingFields input = [] :=
      h1.mpr (fun f hf => Option.isSome_iff_ne_none.mpr (hno f hf))
    exact predict_not_clientError fs st input hm hnil msg hmsg

/-- C10 witness: a record binding all 13 required fields to null passes
validation. -/
theorem predict_validation_presence_only_nulls :
    missingFields inputNulls = [] :=
  (predict_validation_presence_only fsNone stOne inputNulls
    (by simp [stOne])).2.1 (by decide)

/-! Claim C5: default injection. -/

/-- C5: for a record with all 13 required fields (a numeric
`Tourist_Capacity_Limit` and some `Average_Temperature_C` value) and none
of the ten optional fields, default injection succeeds and the result
holds every optional field at exactly its specified literal or derived
value; re-applying default injection to the result is the identity. -/
theorem applyDefaults_spec (input : Record) (q : ℚ) (vat : Value)
    (hreq : missingFields input = [])
    (hopt : ∀ f ∈ optionalFields, lookupKey input f = none)
    (htcl : lookupKey input "Tourist_Capacity_Limit" = some (Value.num q))
    (hvat : lookupKey input "Average_Temperature_C" = some vat) :
    ∃ out, applyDefaults input = Except.ok out ∧
      lookupKey out "Country" = some (Value.str "USA") ∧
      lookupKey out "Flood_Risk_Index" = some (Value.num (3 / 10)) ∧
      lookupKey out "Drought_Risk_Index" = some (Value.num (3 / 10)) ∧
      lookupKey out "Temperature_C" = some vat ∧
      lookupKey out "Annual_Rainfall_mm" = some (Value.num 1000) ∧
      lookupKey out "Soil_Erosion_Risk" = some (Value.num (1 / 5)) ∧
      lookupKey out "Current_Tourist_Count" = some (Value.num (q * (3 / 5))) ∧
      lookupKey out "Human_Activity_Index" = some (Value.num (2 / 5)) ∧
      lookupKey out "Conservation_Investment_USD" = some (Value.num 100000) ∧
      lookupKey out "Climate_Risk_Score" = some (Value.num (2 / 5)) ∧
      applyDefaults out = Except.ok out := by
  have hds : defaultsFor input =
      Except.ok (defaultsList vat (Value.num (q * (3 / 5)))) := by
    simp [defaultsFor, htcl, mulSixTenths, hvat]
  have happ : applyDefaults input =
      Except.ok ((defaultsList vat (Value.num (q * (3 / 5)))).foldl
        (fun r kv => setdefault r kv.1 kv.2) input) := by
    rw [applyDefaults, hds]
  set out := (defaultsList vat (Value.num (q * (3 / 5)))).foldl
    (fun r kv => setdefault r kv.1 kv.2) input with hout
  have hlk : ∀ k, lookupKey out k =
      ((lookupKey input k).orElse
        (fun _ => lookupKey (defaultsList vat (Value.num (q * (3 / 5)))) k)) := by
    intro k
    rw [hout, lookupKey_foldl_setdefault]
  have hC : lookupKey out "Country" = some (Value.str "USA") := by
    rw [hlk, hopt "Country" (by simp [optionalFields])]; rfl
  have hF : lookupKey out "Flood_Risk_Index" = some (Value.num (3 / 10)) := by
    rw [hlk, hopt "Flood_Risk_Index" (by simp [optionalFields])]; rfl
  have hD : lookupKey out "Drought_Risk_Index" = some (Value.num (3 / 10)) := by
    rw [hlk, hopt "Drought_Risk_Index" (by simp [optionalFields])]; rfl
  have hT : lookupKey out "Temperature_C" = some vat := by
    rw [hlk, hopt "Temperature_C" (by simp [optionalFields])]; rfl
  have hA : lookupKey out "Annual_Rainfall_mm" = some (Value.num 1000) := by
    rw [hlk, hopt "Annual_Rainfall_mm" (by simp [optionalFields])]; rfl
  have hS : lookupKey out "Soil_Erosion_Risk" = some (Value.num (1 / 5)) := by
    rw [hlk, hopt "Soil_Erosion_Risk" (by simp [optionalFields])]; rfl
  have hCT : lookupKey out "Current_Tourist_Count" = some (Value.num (q * (3 / 5))) := by
    rw [hlk, hopt "Current_Tourist_Count" (by simp [optionalFields])]; rfl
  have hH : lookupKey out "Human_Activity_Index" = some (Value.num (2 / 5)) := by
    rw [hlk, hopt "Human_Activity_Index" (by simp [optionalFields])]; rfl
  have hCI : lookupKey out "Conservation_Investment_USD" = some (Value.num 100000) := by
    rw [hlk, hopt "Conservation_Investment_USD" (by simp [optionalFields])]; rfl
  have hCR : lookupKey out "Climate_Risk_Score" = some (Value.num (2 / 5)) := by
    rw [hlk, hopt "Climate_Risk_Score" (by simp [optionalFields])]; rfl
  have htcl2 : lookupKey out "Tourist_Capacity_Limit" = some (Value.num q) := by
    rw [hlk, htcl]; rfl
  have hvat2 : lookupKey out "Average_Temperature_C" = some vat := by
    rw [hlk, hvat]; rfl
  have hds2 : defaultsFor out =
      Except.ok (defaultsList vat (Value.num (q * (3 / 5)))) := by
    simp [defaultsFor, htcl2, mulSixTenths, hvat2]
  have hpresent : ∀ kv ∈ defaultsList vat (Value.num (q * (3 / 5))),
      (lookupKey out kv.1).isSome := by
    intro kv hkv
    rw [hlk]
    cases hi : lookupKey input kv.1 with
    | some w => rfl
    | none => simpa [Option.orElse] using lookupKey_isSome_of_mem _ kv hkv
  have hidem : applyDefaults out = Except.ok out := by
    have hfold := foldl_setdefault_of_present _ out hpresent
    simp only [applyDefaults, hds2, hfold]
  exact ⟨out, happ, hC, hF, hD, hT, hA, hS, hCT, hH, hCI, hCR, hidem⟩

/-- C5 witness: the sample record with `Tourist_Capacity_Limit = 500` and
`Average_Temperature_C = 25` gets `Current_Tourist_Count = 300`,
`Country = "USA"`, and the injection is idempotent. -/
theorem applyDefaults_spec_sample :
    ∃ out, applyDefaults sampleInput = Except.ok out ∧
      lookupKey out "Current_Tourist_Count" = some (Value.num 300) ∧
      lookupKey out "Country" = some (Value.str "USA") ∧
      applyDefaults out = Except.ok out := by
  obtain ⟨out, h1, h2, h3, h4, h5, h6, h7, h8, h9, h10, h11, h12⟩ :=
    applyDefaults_spec sampleInput 500 (Value.num 25) (by decide) (by decide)
      (by decide) (by decide)
  refine ⟨out, h1, ?_, h2, h12⟩
  rw [h8]
  norm_num

/-! Claim C6: categorical encoding with fallback to code 0. -/

theorem lookupKey_encodeField_ne (encs : List (String × Encoder)) (d : Record)
    (feat k : String) (h : k ≠ feat) :
    lookupKey (encodeField encs d feat) k = lookupKey d k := by
  unfold encodeField
  split
  · rename_i v e hv he
    exact lookupKey_setKey_ne d feat k (encodeValue e v) h
  · rfl

theorem lookupKey_encodeField_here (encs : List (String × Encoder)) (d : Record)
    (feat : String) (e : Encoder) (v : Value)
    (he : lookupKey encs feat = some e) (hv : lookupKey d feat = some v) :
    lookupKey (encodeField encs d feat) feat = some (encodeValue e v) := by
  unfold encodeField
  rw [hv, he]
  exact lookupKey_setKey_self d feat (encodeValue e v)

/-- C6: in the categorical-encoding loop, a field among `Vegetation_Type`,
`Soil_Type`, `Country` whose string value is unknown to the task's trained
encoder is replaced by the integer code 0 without failing; a known value is
replaced by its trained code (its index in the encoder's `classes_`). -/
theorem preprocess_unknown_category (encs : List (String × Encoder)) (d : Record)
    (feat : String) (e : Encoder) (v : Value) (hf : feat ∈ catFeatures)
    (he : lookupKey encs feat = some e) (hv : lookupKey d feat = some v) :
    (pyStr v ∉ e.classes →
       lookupKey (encodeCategoricals encs d) feat = some (Value.num 0)) ∧
      (pyStr v ∈ e.classes →
        lookupKey (encodeCategoricals encs d) feat =
          some (Value.num (e.classes.indexOf (pyStr v)))) := by
  have hkey : lookupKey (encodeCategoricals encs d) feat = some (encodeValue e v) := by
    have hfold : encodeCategoricals encs d =
        encodeField encs (encodeField encs (encodeField encs d "Vegetation_Type")
          "Soil_Type") "Country" := rfl
    rw [hfold]
    simp only [catFeatures, List.mem_cons, List.not_mem_nil, or_false] at hf
    rcases hf with rfl | rfl | rfl
    · rw [lookupKey_encodeField_ne _ _ _ _ (by decide),
        lookupKey_encodeField_ne _ _ _ _ (by decide)]
      exact lookupKey_encodeField_here _ _ _ _ _ he hv
    · rw [lookupKey_encodeField_ne _ _ _ _ (by decide)]
      refine lookupKey_encodeField_here _ _ _ _ _ he ?_
      rw [lookupKey_encodeField_ne _ _ _ _ (by decide)]
      exact hv
    · refine lookupKey_encodeField_here _ _ _ _ _ he ?_
      rw [lookupKey_encodeField_ne _ _ _ _ (by decide),
        lookupKey_encodeField_ne _ _ _ _ (by decide)]
      exact hv
  constructor
  · intro hn
    rw [hkey]
    simp [encodeValue, hn]
  · intro hy
    rw [hkey]
    simp [encodeValue, hy]

/-- C6 witness: `Vegetation_Type = "Swamp"` is unknown to the trained
vocabulary `["Forest", "Urban"]` and encodes to 0. -/
theorem preprocess_unknown_category_swamp :
    lookupKey (encodeCategoricals [("Vegetation_Type", sampleEncoder)] sampleCatRecord)
      "Vegetation_Type" = some (Value.num 0) :=
  (preprocess_unknown_category [("Vegetation_Type", sampleEncoder)] sampleCatRecord
    "Vegetation_Type" sampleEncoder (Value.str "Swamp") (by decide) (by decide)
    (by decide)).1 (by decide)

/-! Claim C7: the health endpoint. -/

/-- C7: the health report's status is `"healthy"` iff all four artifact
maps are simultaneously non-empty (and `"unhealthy"` otherwise); each
store's loaded flag equals its non-emptiness and its available list is
exactly its keys; and the handler returns the artifact state unchanged —
it performs no load. -/
theorem health_check_spec (st : ArtifactState) :
    ((health_check st).1.status = "healthy" ↔
       (st.models ≠ [] ∧ st.encoders ≠ [] ∧ st.scalers ≠ [] ∧
         st.feature_names ≠ [])) ∧
      ((health_check st).1.status = "unhealthy" ↔
        ¬ (st.models ≠ [] ∧ st.encoders ≠ [] ∧ st.scalers ≠ [] ∧
          st.feature_names ≠ [])) ∧
      ((health_check st).1.models_loaded = true ↔ st.models ≠ []) ∧
      (health_check st).1.available_models = st.models.map Prod.fst ∧
      ((health_check st).1.encoders_loaded = true ↔ st.encoders ≠ []) ∧
      (health_check st).1.available_encoders = st.encoders.map Prod.fst ∧
      ((health_check st).1.scalers_loaded = true ↔ st.scalers ≠ []) ∧
      (health_check st).1.available_scalers = st.scalers.map Prod.fst ∧
      ((health_check st).1.feature_names_loaded = true ↔ st.feature_names ≠ []) ∧
      (health_check st).1.available_feature_sets = st.feature_names.map Prod.fst ∧
      (health_check st).2 = st := by
  by_cases h1 : st.models = [] <;> by_cases h2 : st.encoders = [] <;>
    by_cases h3 : st.scalers = [] <;> by_cases h4 : st.feature_names = [] <;>
      simp [health_check, h1, h2, h3, h4, isEmpty_false_of_ne]

/-! Claim C8: error wrapping in the preprocessing pipeline. -/

/-- C8: every failure of the preprocessing sequence surfaces as the single
generic condition `"Error preprocessing data: <original message>"`; in
particular preprocessing fails this way when the models map is empty
(message `Models not loaded`) and when the task lacks an encoders, scalers
or `<task>_features` entry (message naming the task). -/
theorem preprocess_error_wrapping (st : ArtifactState) (d : Record) (task : String) :
    (∀ e, preprocess_input_data st d task = Except.error e →
       ∃ m, e = "Error preprocessing data: " ++ m) ∧
      (st.models = [] →
        preprocess_input_data st d task =
          Except.error "Error preprocessing data: Models not loaded") ∧
      (st.models ≠ [] →
        ((lookupKey st.encoders task).isNone ∨ (lookupKey st.scalers task).isNone ∨
          (lookupKey st.feature_names (task ++ "_features")).isNone) →
        preprocess_input_data st d task =
          Except.error
            ("Error preprocessing data: Missing encoders/scalers/features for task \x27"
              ++ task ++ "\x27")) := by
  refine ⟨?_, ?_, ?_⟩
  · intro e he
    unfold preprocess_input_data at he
    cases hpi : preprocessInner st d task with
    | ok v => rw [hpi] at he; simp at he
    | error e0 =>
      rw [hpi] at he
      simp at he
      exact ⟨e0, he.symm⟩
  · intro h
    have hni : st.models.isEmpty = true := by rw [h]; rfl
    unfold preprocess_input_data preprocessInner
    rw [hni]
    simp
  · intro h1 h2
    have hni : st.models.isEmpty = false := isEmpty_false_of_ne _ h1
    unfold preprocess_input_data preprocessInner
    rw [hni]
    simp only [Bool.false_eq_true, if_false]
    rw [if_pos h2]
    rfl

/-- C8 witness: the empty state yields the wrapped models-not-loaded
message; a state with a model but no artifacts yields the wrapped
missing-artifacts message for the regression task. -/
theorem preprocess_error_wrapping_points :
    preprocess_input_data stEmpty [] "regression" =
        Except.error "Error preprocessing data: Models not loaded" ∧
      preprocess_input_data stOne [] "regression" =
        Except.error
          ("Error preprocessing data: Missing encoders/scalers/features for task \x27regression\x27") :=
  ⟨(preprocess_error_wrapping stEmpty [] "regression").2.1 rfl,
   (preprocess_error_wrapping stOne [] "regression").2.2 (by simp [stOne])
     (Or.inl (by simp [stOne, lookupKey]))⟩
